import Mathlib

/-!
# Rockchip DesignWare MMC driver glue (`drivers/mmc/rockchip_dw_mmc.c`)

A shallow embedding of the driver binding: the device-tree parameter reader
(`rockchip_dwmmc_ofdata_to_platdata`), the clock adapter
(`rockchip_dwmmc_get_mmc_clk`), the probe routine (`rockchip_dwmmc_probe`) and
the eMMC power-sequence adapter (`rockchip_dwmmc_pwrseq_set_power`).

Calls into collaborators that live outside this file (clock framework, GPIO
framework, generic `dwmci` core, uclass lookup) are recorded as events of a
trace, and their return codes are supplied by an environment that may answer
differently depending on the history of calls made so far.
-/

set_option linter.unusedVariables false

namespace RockchipDwMmc

/-! ## Machine integers -/

/-- Conversion of a C `int` value to `u32` / `uint` (value modulo 2^32). -/
def to_u32 (x : Int) : Nat := (x % 4294967296).toNat

/-- Conversion of an integer value to a 32-bit signed C `int` (two's complement wrap). -/
def to_int (x : Int) : Int := (x + 2147483648) % 4294967296 - 2147483648

/-- Modelled from the spec: the errno constant `EINVAL` (from `errno.h`, not part of
this file), the "invalid-argument condition". -/
def EINVAL : Int := 22

/-! ## Build configuration -/

/-- Compile-time switches used by the file: `CONFIG_IS_ENABLED(OF_PLATDATA)` and
`CONFIG_PWRSEQ`. -/
structure Config where
  OF_PLATDATA : Bool
  PWRSEQ : Bool
  deriving DecidableEq, Repr

/-! ## Device tree -/

/-- A device-tree node: named properties, each a sequence of 32-bit cells. -/
structure fdt_node where
  props : List (String × List Nat)
  deriving DecidableEq, Repr

/-- Property lookup in a node (`fdt_getprop`): the cells of the first property of that name. -/
def fdt_getprop (node : fdt_node) (prop_name : String) : Option (List Nat) :=
  node.props.lookup prop_name

/-- Modelled from the spec: `fdtdec_get_int` (library code outside this file). Reads an
integer property; the default value is returned when the property is unspecified. The
first cell is read as a signed 32-bit integer. -/
def fdtdec_get_int (node : fdt_node) (prop_name : String) (default_val : Int) : Int :=
  match fdt_getprop node prop_name with
  | some (c :: _) => to_int c
  | _ => default_val

/-- Modelled from the spec: `fdtdec_get_bool` (library code outside this file). A boolean
property is a presence flag. -/
def fdtdec_get_bool (node : fdt_node) (prop_name : String) : Bool :=
  (fdt_getprop node prop_name).isSome

/-- Modelled from the spec: `fdtdec_get_int_array` (library code outside this file). Reads
an array of exactly `count` 32-bit integers; an absent property or a wrong array length is
a failure (non-zero negative code: 1 for not-found, 7 for bad layout, negated), otherwise
the cells are returned as `u32` values. -/
def fdtdec_get_int_array (node : fdt_node) (prop_name : String) (count : Nat) :
    Except Int (List Nat) :=
  match fdt_getprop node prop_name with
  | none => .error (-1)
  | some cells =>
    if cells.length = count then .ok (cells.map (fun c => c % 4294967296))
    else .error (-7)

/-! ## Driver data -/

/-- Callback installed in `host->get_mmc_clk`. -/
inductive clk_callback where
  | rockchip_dwmmc_get_mmc_clk
  deriving DecidableEq, Repr

/-- The fields of `struct dwmci_host` this file touches. Pointers are represented by
the name of the device or object they point to. -/
structure dwmci_host where
  name : String
  ioaddr : Nat
  buswidth : Int
  dev_index : Int
  caps : Nat
  fifoth_val : Nat
  fifo_mode : Bool
  get_mmc_clk : Option clk_callback
  priv : Option String
  mmc : Option String
  deriving DecidableEq, Repr

/-- The driver private data: `struct rockchip_dwmmc_priv`. The clock handle is
represented by the index it was acquired with. -/
structure rockchip_dwmmc_priv where
  clk : Option Nat
  host : dwmci_host
  fifo_depth : Int
  fifo_mode : Bool
  minmax : Nat × Nat
  deriving DecidableEq, Repr

/-- The pre-parsed platform data `struct dtd_rockchip_rk3288_dw_mshc` (generated header,
only the members read by this file). -/
structure dtd_rockchip_rk3288_dw_mshc where
  reg : Nat × Nat
  bus_width : Int
  fifo_depth : Int
  clock_freq_min_max : Nat × Nat
  deriving DecidableEq, Repr

/-- Modelled from the spec: `struct mmc_config` (declared in `mmc.h`, outside this file),
restricted to the name and the clock bounds of the configuration. -/
structure mmc_config where
  name : String
  f_min : Nat
  f_max : Nat
  deriving DecidableEq, Repr

/-- The `struct mmc` front-end object: the back-pointers set by probe. -/
structure mmc where
  priv : Option String
  dev : Option String
  deriving DecidableEq, Repr

/-- The platform data: `struct rockchip_mmc_plat`. -/
structure rockchip_mmc_plat where
  dtplat : dtd_rockchip_rk3288_dw_mshc
  cfg : mmc_config
  mmc : mmc
  deriving DecidableEq, Repr

/-- A device: `struct udevice` with its name, register address (`dev_get_addr`) and the
device-tree node at `dev->of_offset`. -/
structure udevice where
  name : String
  addr : Nat
  node : fdt_node
  deriving DecidableEq, Repr

/-- Everything probe reads or writes for one device: private data, platform data and the
uclass-private `mmc` pointer. -/
structure drv_state where
  priv : rockchip_dwmmc_priv
  plat : rockchip_mmc_plat
  upriv_mmc : Option String
  deriving DecidableEq, Repr

/-! ## Collaborator calls -/

/-- Calls made into code outside this file, with their arguments. -/
inductive Event where
  | clk_get_by_index (dev : String) (index : Nat)
  | clk_get_by_index_platdata (dev : String) (index : Nat)
  | clk_set_rate (freq : Nat)
  | debug (func : String) (err : Int)
  | map_sysmem (paddr : Nat) (len : Nat)
  | uclass_get_device_by_phandle (dev : String) (name : String)
  | pwrseq_set_power (enable : Bool)
  | dwmci_setup_cfg (name : String) (buswidth : Int) (caps : Nat) (max_clk : Nat) (min_clk : Nat)
  | dwmci_probe (dev : String)
  | gpio_request_by_name (dev : String) (list_name : String) (index : Nat)
  | dm_gpio_set_value (value : Int)
  | udelay (usec : Nat)
  deriving DecidableEq, Repr

/-- The environment: the value each collaborator call returns, given the calls made
before it. -/
structure Env where
  respond : List Event → Event → Int

/-- Perform a collaborator call: its return value and the extended trace. -/
def call (env : Env) (tr : List Event) (e : Event) : Int × List Event :=
  (env.respond tr e, tr ++ [e])

/-- Modelled from the spec: the `MSIZE`, `RX_WMARK` and `TX_WMARK` macros of `dwmmc.h`
(not part of this file), which place a value in its field of the FIFO threshold
register. -/
structure FifothLayout where
  MSIZE : Int → Int
  RX_WMARK : Int → Int
  TX_WMARK : Int → Int

/-- Modelled from the spec: the upstream field layout, `MSIZE(x) = x << 28`,
`RX_WMARK(x) = x << 16`, `TX_WMARK(x) = x`. -/
def upstream_layout : FifothLayout where
  MSIZE := fun x => x * 2 ^ 28
  RX_WMARK := fun x => x * 2 ^ 16
  TX_WMARK := fun x => x

/-- Modelled from the spec: `dwmci_setup_cfg` (generic controller core, outside this
file). Its trailing parameters are positionally `(max_clk, min_clk)`; it stores the name
and the clock bounds into the configuration. -/
def dwmci_setup_cfg (cfg : mmc_config) (name : String) (buswidth : Int) (caps : Nat)
    (max_clk : Nat) (min_clk : Nat) : mmc_config :=
  { cfg with name := name, f_min := min_clk, f_max := max_clk }

/-! ## The driver functions -/

/-- The clock adapter `rockchip_dwmmc_get_mmc_clk(host, freq)`: `freq` is a `uint`, the
result is a `uint`. -/
def rockchip_dwmmc_get_mmc_clk (env : Env) (tr : List Event) (freq : Nat) :
    Nat × List Event :=
  let r := call env tr (.clk_set_rate freq)
  let ret : Int := to_int r.1
  if ret < 0 then
    (to_u32 ret, r.2 ++ [.debug "rockchip_dwmmc_get_mmc_clk" ret])
  else
    (freq, r.2)

/-- The parameter reader `rockchip_dwmmc_ofdata_to_platdata(dev)`: return code and the
updated private data. -/
def rockchip_dwmmc_ofdata_to_platdata (c : Config) (dev : udevice)
    (priv : rockchip_dwmmc_priv) : Int × rockchip_dwmmc_priv :=
  if c.OF_PLATDATA then (0, priv)
  else
    let host := priv.host
    let host := { host with name := dev.name }
    let host := { host with ioaddr := dev.addr }
    let host := { host with buswidth := fdtdec_get_int dev.node "bus-width" 4 }
    let host := { host with get_mmc_clk := some .rockchip_dwmmc_get_mmc_clk }
    let host := { host with priv := some dev.name }
    let host :=
      if fdtdec_get_bool dev.node "non-removable" then { host with dev_index := 0 }
      else { host with dev_index := 1 }
    let priv := { priv with host := host }
    let priv := { priv with fifo_depth := fdtdec_get_int dev.node "fifo-depth" 0 }
    if priv.fifo_depth < 0 then (-EINVAL, priv)
    else
      let priv := { priv with fifo_mode := fdtdec_get_bool dev.node "fifo-mode" }
      match fdtdec_get_int_array dev.node "clock-freq-min-max" 2 with
      | .ok array =>
        (0, { priv with minmax := (array.getD 0 priv.minmax.1, array.getD 1 priv.minmax.2) })
      | .error _ => (-EINVAL, priv)

/-- The FIFO threshold value computed by probe from the FIFO depth:
`MSIZE(0x2) | RX_WMARK(depth / 2 - 1) | TX_WMARK(depth / 2)` stored into a `u32`. -/
def fifoth_of_depth (L : FifothLayout) (fifo_depth : Int) : Nat :=
  to_u32 (Int.lor (Int.lor (L.MSIZE 2) (L.RX_WMARK (Int.tdiv fifo_depth 2 - 1)))
    (L.TX_WMARK (Int.tdiv fifo_depth 2)))

/-- The first part of probe: filling the host from the pre-parsed platform data (when
`OF_PLATDATA` is enabled) and acquiring the clock handle at index 0. -/
def probe_get_clk (c : Config) (env : Env) (dev : udevice) (s : drv_state)
    (tr : List Event) : Int × drv_state × List Event :=
  if c.OF_PLATDATA then
    let dtplat := s.plat.dtplat
    let priv := s.priv
    let host := priv.host
    let host := { host with name := dev.name }
    let m := call env tr (.map_sysmem dtplat.reg.1 dtplat.reg.2)
    let host := { host with ioaddr := dtplat.reg.1 }
    let host := { host with buswidth := dtplat.bus_width }
    let host := { host with get_mmc_clk := some .rockchip_dwmmc_get_mmc_clk }
    let host := { host with priv := some dev.name }
    let host := { host with dev_index := 0 }
    let priv := { priv with host := host }
    let priv := { priv with fifo_depth := dtplat.fifo_depth }
    let priv := { priv with fifo_mode := false }
    let priv := { priv with minmax := dtplat.clock_freq_min_max }
    let r := call env m.2 (.clk_get_by_index_platdata dev.name 0)
    let priv := if r.1 < 0 then priv else { priv with clk := some 0 }
    (r.1, { s with priv := priv }, r.2)
  else
    let r := call env tr (.clk_get_by_index dev.name 0)
    let priv := if r.1 < 0 then s.priv else { s.priv with clk := some 0 }
    (r.1, { s with priv := priv }, r.2)

/-- The tail of probe after power sequencing: configuration setup, linkage of the
controller, the MMC object and the device, and delegation to `dwmci_probe`. -/
def probe_finish (env : Env) (dev : udevice) (s : drv_state) (tr : List Event) :
    Int × drv_state × List Event :=
  let host := s.priv.host
  let tr1 := (call env tr (.dwmci_setup_cfg dev.name host.buswidth host.caps
    s.priv.minmax.2 s.priv.minmax.1)).2
  let cfg := dwmci_setup_cfg s.plat.cfg dev.name host.buswidth host.caps
    s.priv.minmax.2 s.priv.minmax.1
  let host := { host with mmc := some dev.name }
  let mmc := { s.plat.mmc with priv := some dev.name }
  let mmc := { mmc with dev := some dev.name }
  let s := { s with
    priv := { s.priv with host := host },
    plat := { s.plat with cfg := cfg, mmc := mmc },
    upriv_mmc := some dev.name }
  let r := call env tr1 (.dwmci_probe dev.name)
  (r.1, s, r.2)

/-- The middle of probe: the FIFO threshold value and the FIFO mode are stored into the
host. -/
def probe_set_fifoth (L : FifothLayout) (s : drv_state) : drv_state :=
  let host := s.priv.host
  let host := { host with fifoth_val := fifoth_of_depth L s.priv.fifo_depth }
  let host := { host with fifo_mode := s.priv.fifo_mode }
  { s with priv := { s.priv with host := host } }

/-- The probe routine `rockchip_dwmmc_probe(dev)`: return code, final driver state and
trace of collaborator calls. -/
def rockchip_dwmmc_probe (c : Config) (L : FifothLayout) (env : Env) (dev : udevice)
    (s : drv_state) (tr : List Event) : Int × drv_state × List Event :=
  let g := probe_get_clk c env dev s tr
  if g.1 < 0 then g
  else
    let s := probe_set_fifoth L g.2.1
    if c.PWRSEQ then
      let p := call env g.2.2 (.uclass_get_device_by_phandle dev.name "mmc-pwrseq")
      if p.1 = 0 then
        let q := call env p.2 (.pwrseq_set_power true)
        if q.1 ≠ 0 then (q.1, s, q.2)
        else probe_finish env dev s q.2
      else probe_finish env dev s p.2
    else probe_finish env dev s g.2.2

/-- The power-sequence adapter `rockchip_dwmmc_pwrseq_set_power(dev, enable)`. -/
def rockchip_dwmmc_pwrseq_set_power (env : Env) (tr : List Event) (dev : udevice)
    (enable : Bool) : Int × List Event :=
  let r := call env tr (.gpio_request_by_name dev.name "reset-gpios" 0)
  if r.1 ≠ 0 then (r.1, r.2)
  else
    let t1 := (call env r.2 (.dm_gpio_set_value 1)).2
    let t2 := (call env t1 (.udelay 1)).2
    let t3 := (call env t2 (.dm_gpio_set_value 0)).2
    let t4 := (call env t3 (.udelay 200)).2
    (0, t4)

/-! ## Specification-side vocabulary -/

/-- The live-tree build: `OF_PLATDATA` disabled, `CONFIG_PWRSEQ` as given. -/
def live_tree (pwrseq : Bool) : Config := { OF_PLATDATA := false, PWRSEQ := pwrseq }

/-- Recognises a `clk_set_rate` call in a trace. -/
def is_clk_set_rate : Event → Bool
  | .clk_set_rate _ => true
  | _ => false

/-- Recognises a `dwmci_probe` call in a trace. -/
def is_dwmci_probe : Event → Bool
  | .dwmci_probe _ => true
  | _ => false

/-- Recognises a `dwmci_setup_cfg` call in a trace. -/
def is_dwmci_setup_cfg : Event → Bool
  | .dwmci_setup_cfg _ _ _ _ _ => true
  | _ => false

/-- Recognises a GPIO write or a delay in a trace. -/
def is_write_or_delay : Event → Bool
  | .dm_gpio_set_value _ => true
  | .udelay _ => true
  | _ => false

/-- The phandle lookup probe performs for the power-sequence device. -/
def pwrseq_lookup (dev : udevice) : Event :=
  .uclass_get_device_by_phandle dev.name "mmc-pwrseq"

/-- Power sequencing aborts probe: support is compiled in, the power-sequence device
resolves after the history `t`, and `pwrseq_set_power` then returns a non-zero code. -/
def pwrseq_aborts (c : Config) (env : Env) (dev : udevice) (t : List Event) : Prop :=
  c.PWRSEQ = true ∧ env.respond t (pwrseq_lookup dev) = 0 ∧
    env.respond (t ++ [pwrseq_lookup dev]) (.pwrseq_set_power true) ≠ 0

/-- The calls probe makes between clock acquisition and configuration setup when power
sequencing does not abort it. -/
def pwrseq_events (c : Config) (env : Env) (dev : udevice) (t : List Event) : List Event :=
  if c.PWRSEQ then
    if env.respond t (pwrseq_lookup dev) = 0 then [pwrseq_lookup dev, .pwrseq_set_power true]
    else [pwrseq_lookup dev]
  else []

/-- The RX watermark field of a FIFO threshold value: bits 16..27. -/
def rx_wmark_field (v : Nat) : Nat := (v / 2 ^ 16) % 2 ^ 12

/-- The TX watermark field of a FIFO threshold value: bits 0..11. -/
def tx_wmark_field (v : Nat) : Nat := v % 2 ^ 12

/-- The MSIZE field of a FIFO threshold value: bits 28..30. -/
def msize_field (v : Nat) : Nat := (v / 2 ^ 28) % 2 ^ 3

/-- The call by which probe acquires the clock handle at index 0. -/
def clk_get_event (c : Config) (dev : udevice) : Event :=
  if c.OF_PLATDATA then .clk_get_by_index_platdata dev.name 0
  else .clk_get_by_index dev.name 0

/-- The calls probe makes before acquiring the clock handle (the register mapping of the
pre-parsed mode). -/
def clk_preamble (c : Config) (s : drv_state) : List Event :=
  if c.OF_PLATDATA then [.map_sysmem s.plat.dtplat.reg.1 s.plat.dtplat.reg.2] else []

/-- The return code of the clock acquisition performed by probe from history `tr`. -/
def clk_get_ret (c : Config) (env : Env) (dev : udevice) (s : drv_state)
    (tr : List Event) : Int :=
  env.respond (tr ++ clk_preamble c s) (clk_get_event c dev)

/-- The trace once probe has attempted the clock acquisition. -/
def after_clk (c : Config) (dev : udevice) (s : drv_state) (tr : List Event) : List Event :=
  tr ++ clk_preamble c s ++ [clk_get_event c dev]

/-- The FIFO depth held in the private data when probe computes the watermark. -/
def depth_at_probe (c : Config) (s : drv_state) : Int :=
  if c.OF_PLATDATA then s.plat.dtplat.fifo_depth else s.priv.fifo_depth

/-- The clock pair held in the private data when probe sets up the configuration. -/
def minmax_at_probe (c : Config) (s : drv_state) : Nat × Nat :=
  if c.OF_PLATDATA then s.plat.dtplat.clock_freq_min_max else s.priv.minmax

/-- The bus width held in the host when probe sets up the configuration. -/
def buswidth_at_probe (c : Config) (s : drv_state) : Int :=
  if c.OF_PLATDATA then s.plat.dtplat.bus_width else s.priv.host.buswidth

/-- The `dwmci_setup_cfg` call probe makes. -/
def setup_event (c : Config) (dev : udevice) (s : drv_state) : Event :=
  .dwmci_setup_cfg dev.name (buswidth_at_probe c s) s.priv.host.caps
    (minmax_at_probe c s).2 (minmax_at_probe c s).1

/-! ## Concrete inputs -/

/-- A zeroed host structure. -/
def host0 : dwmci_host :=
  { name := "", ioaddr := 0, buswidth := 0, dev_index := 0, caps := 0, fifoth_val := 0,
    fifo_mode := false, get_mmc_clk := none, priv := none, mmc := none }

/-- Zeroed private data, as allocated by the device model before parsing. -/
def priv0 : rockchip_dwmmc_priv :=
  { clk := none, host := host0, fifo_depth := 0, fifo_mode := false, minmax := (0, 0) }

/-- Zeroed platform data. -/
def plat0 : rockchip_mmc_plat :=
  { dtplat := { reg := (0, 0), bus_width := 0, fifo_depth := 0, clock_freq_min_max := (0, 0) },
    cfg := { name := "", f_min := 0, f_max := 0 },
    mmc := { priv := none, dev := none } }

/-- Zeroed driver state. -/
def state0 : drv_state := { priv := priv0, plat := plat0, upriv_mmc := none }

/-- The node `bus-width = 8`, `fifo-depth = 32`, `clock-freq-min-max = [52000000, 400000]`,
without `non-removable`. -/
def node_e2e : fdt_node :=
  { props := [("bus-width", [8]), ("fifo-depth", [32]),
      ("clock-freq-min-max", [52000000, 400000])] }

/-- A device on the node `node_e2e`. -/
def dev_e2e : udevice := { name := "dwmmc@ff0c0000", addr := 4278976512, node := node_e2e }

/-- A node with `fifo-depth = -1` (the cell `0xffffffff`). -/
def node_neg_depth : fdt_node :=
  { props := [("fifo-depth", [4294967295]), ("clock-freq-min-max", [400000, 52000000])] }

/-- A device on the node `node_neg_depth`. -/
def dev_neg_depth : udevice := { name := "dwmmc@0", addr := 0, node := node_neg_depth }

/-- A node carrying only `non-removable` and a three-element `clock-freq-min-max`. -/
def node_emmc : fdt_node :=
  { props := [("non-removable", []), ("clock-freq-min-max", [1, 2, 3])] }

/-- A device on the node `node_emmc`. -/
def dev_emmc : udevice := { name := "dwmmc@1", addr := 0, node := node_emmc }

/-- An environment in which every collaborator call returns 0. -/
def env_ok : Env := { respond := fun _ _ => 0 }

/-- An environment whose clock framework answers `clk_set_rate` with `r` and in which
every other call returns 0. -/
def env_rate (r : Int) : Env :=
  { respond := fun _ e => match e with
      | .clk_set_rate _ => r
      | _ => 0 }

/-- An environment in which the GPIO request fails with `-ENOENT` (no `reset-gpios`
property) and every other call returns 0. -/
def env_no_reset_gpios : Env :=
  { respond := fun _ e => match e with
      | .gpio_request_by_name _ _ _ => -2
      | _ => 0 }

/-- The driver state of the end-to-end device after its parameters have been parsed in
live-tree mode. -/
def state_e2e : drv_state :=
  { state0 with priv := (rockchip_dwmmc_ofdata_to_platdata (live_tree true) dev_e2e priv0).2 }

/-- An environment in which the clock handle cannot be acquired (`-ENOENT`) and every
other call returns 0. -/
def env_no_clk : Env :=
  { respond := fun _ e => match e with
      | .clk_get_by_index _ _ => -2
      | .clk_get_by_index_platdata _ _ => -2
      | _ => 0 }

/-- An environment in which the power-sequence device resolves but `pwrseq_set_power`
fails with `-EIO`; every other call returns 0. -/
def env_pwrseq_fails : Env :=
  { respond := fun _ e => match e with
      | .pwrseq_set_power _ => -5
      | _ => 0 }

/-- An environment in which the `mmc-pwrseq` phandle lookup fails with `-ENOENT` (no such
property) and every other call returns 0. -/
def env_no_pwrseq : Env :=
  { respond := fun _ e => match e with
      | .uclass_get_device_by_phandle _ _ => -2
      | _ => 0 }

/-- An environment in which the generic controller probe times out (`-ETIMEDOUT`) and
every other call returns 0. -/
def env_dwmci_fails : Env :=
  { respond := fun _ e => match e with
      | .dwmci_probe _ => -110
      | _ => 0 }

/-! ## Parameter extraction -/

theorem fdtdec_get_int_absent (node : fdt_node) (n : String) (d : Int)
    (h : fdt_getprop node n = none) : fdtdec_get_int node n d = d := by
  simp [fdtdec_get_int, h]

theorem fdtdec_get_int_array_error_iff (node : fdt_node) (n : String) (k : Nat) :
    (∃ e, fdtdec_get_int_array node n k = .error e) ↔
      (fdt_getprop node n = none ∨ ∃ cells, fdt_getprop node n = some cells ∧ cells.length ≠ k) := by
  unfold fdtdec_get_int_array
  cases h : fdt_getprop node n with
  | none => simp
  | some cells =>
    by_cases hl : cells.length = k <;> simp [hl]

theorem ofdata_ret (pw : Bool) (dev : udevice) (priv : rockchip_dwmmc_priv) :
    (rockchip_dwmmc_ofdata_to_platdata (live_tree pw) dev priv).1 =
      if fdtdec_get_int dev.node "fifo-depth" 0 < 0 then -EINVAL
      else match fdtdec_get_int_array dev.node "clock-freq-min-max" 2 with
        | .ok _ => 0
        | .error _ => -EINVAL := by
  unfold rockchip_dwmmc_ofdata_to_platdata live_tree
  simp only [Bool.false_eq_true, if_false]
  split
  · rfl
  · split <;> simp_all

/-- C1: in live-tree mode the parameter reader returns `-EINVAL` exactly when the
`fifo-depth` value read (0 when the property is absent) is negative or the read of the
two-element `clock-freq-min-max` array fails (property absent or of the wrong length), and
it returns 0 exactly in the remaining cases. -/
theorem ofdata_to_platdata_einval_iff (pw : Bool) (dev : udevice)
    (priv : rockchip_dwmmc_priv) :
    ((rockchip_dwmmc_ofdata_to_platdata (live_tree pw) dev priv).1 = -EINVAL ↔
      (fdtdec_get_int dev.node "fifo-depth" 0 < 0 ∨
        ∃ e, fdtdec_get_int_array dev.node "clock-freq-min-max" 2 = .error e)) ∧
    ((rockchip_dwmmc_ofdata_to_platdata (live_tree pw) dev priv).1 = 0 ↔
      ¬ (fdtdec_get_int dev.node "fifo-depth" 0 < 0 ∨
        ∃ e, fdtdec_get_int_array dev.node "clock-freq-min-max" 2 = .error e)) ∧
    ((∃ e, fdtdec_get_int_array dev.node "clock-freq-min-max" 2 = .error e) ↔
      (fdt_getprop dev.node "clock-freq-min-max" = none ∨
        ∃ cells, fdt_getprop dev.node "clock-freq-min-max" = some cells ∧ cells.length ≠ 2)) ∧
    (fdt_getprop dev.node "fifo-depth" = none → fdtdec_get_int dev.node "fifo-depth" 0 = 0) := by
  refine ⟨?_, ?_, fdtdec_get_int_array_error_iff _ _ _, fdtdec_get_int_absent _ _ _⟩
  · rw [ofdata_ret]
    by_cases h : fdtdec_get_int dev.node "fifo-depth" 0 < 0
    · simp [h]
    · cases ha : fdtdec_get_int_array dev.node "clock-freq-min-max" 2 <;> simp [h, EINVAL]
  · rw [ofdata_ret]
    by_cases h : fdtdec_get_int dev.node "fifo-depth" 0 < 0
    · simp [h, EINVAL]
    · cases ha : fdtdec_get_int_array dev.node "clock-freq-min-max" 2 <;> simp [h, EINVAL]

/-- Witness for C1: a node without `fifo-depth` reads depth 0 and then fails on its
three-element `clock-freq-min-max`; a node with `fifo-depth = -1` fails as well. -/
theorem ofdata_to_platdata_einval_iff_witness :
    (fdt_getprop dev_emmc.node "fifo-depth" = none ∧
      fdtdec_get_int dev_emmc.node "fifo-depth" 0 = 0) ∧
    (rockchip_dwmmc_ofdata_to_platdata (live_tree false) dev_emmc priv0).1 = -EINVAL ∧
    (rockchip_dwmmc_ofdata_to_platdata (live_tree false) dev_neg_depth priv0).1 = -EINVAL :=
  ⟨⟨by decide, (ofdata_to_platdata_einval_iff false dev_emmc priv0).2.2.2 (by decide)⟩,
   (ofdata_to_platdata_einval_iff false dev_emmc priv0).1.mpr (Or.inr ⟨-7, rfl⟩),
   (ofdata_to_platdata_einval_iff false dev_neg_depth priv0).1.mpr (Or.inl (by decide))⟩

theorem ofdata_host_buswidth (pw : Bool) (dev : udevice) (priv : rockchip_dwmmc_priv) :
    (rockchip_dwmmc_ofdata_to_platdata (live_tree pw) dev priv).2.host.buswidth
      = fdtdec_get_int dev.node "bus-width" 4 := by
  unfold rockchip_dwmmc_ofdata_to_platdata live_tree
  simp only [Bool.false_eq_true, if_false]
  split
  · split <;> rfl
  · split <;> split <;> rfl

theorem ofdata_host_dev_index (pw : Bool) (dev : udevice) (priv : rockchip_dwmmc_priv) :
    (rockchip_dwmmc_ofdata_to_platdata (live_tree pw) dev priv).2.host.dev_index
      = if fdtdec_get_bool dev.node "non-removable" then 0 else 1 := by
  unfold rockchip_dwmmc_ofdata_to_platdata live_tree
  simp only [Bool.false_eq_true, if_false]
  split
  · split <;> rfl
  · split <;> split <;> rfl

theorem ofdata_host_caps (pw : Bool) (dev : udevice) (priv : rockchip_dwmmc_priv) :
    (rockchip_dwmmc_ofdata_to_platdata (live_tree pw) dev priv).2.host.caps
      = priv.host.caps := by
  unfold rockchip_dwmmc_ofdata_to_platdata live_tree
  simp only [Bool.false_eq_true, if_false]
  split
  · split <;> rfl
  · split <;> split <;> rfl

theorem ofdata_fifo_depth (pw : Bool) (dev : udevice) (priv : rockchip_dwmmc_priv) :
    (rockchip_dwmmc_ofdata_to_platdata (live_tree pw) dev priv).2.fifo_depth
      = fdtdec_get_int dev.node "fifo-depth" 0 := by
  unfold rockchip_dwmmc_ofdata_to_platdata live_tree
  simp only [Bool.false_eq_true, if_false]
  split
  · rfl
  · split <;> rfl

theorem ofdata_minmax (pw : Bool) (dev : udevice) (priv : rockchip_dwmmc_priv) (a b : Nat)
    (hprop : fdt_getprop dev.node "clock-freq-min-max" = some [a, b])
    (hdepth : 0 ≤ fdtdec_get_int dev.node "fifo-depth" 0) :
    (rockchip_dwmmc_ofdata_to_platdata (live_tree pw) dev priv).1 = 0 ∧
    (rockchip_dwmmc_ofdata_to_platdata (live_tree pw) dev priv).2.minmax
      = (a % 4294967296, b % 4294967296) := by
  have harr : fdtdec_get_int_array dev.node "clock-freq-min-max" 2
      = .ok [a % 4294967296, b % 4294967296] := by
    simp [fdtdec_get_int_array, hprop]
  unfold rockchip_dwmmc_ofdata_to_platdata live_tree
  simp only [Bool.false_eq_true, if_false, not_lt.mpr hdepth, harr]
  exact ⟨trivial, rfl⟩

/-- C6: in live-tree mode the parameter reader sets the host bus width to the value of
`bus-width`, or to 4 when the property is absent, and the host device index to 0 when
`non-removable` is present and to 1 when it is absent. -/
theorem ofdata_buswidth_dev_index (pw : Bool) (dev : udevice) (priv : rockchip_dwmmc_priv) :
    (rockchip_dwmmc_ofdata_to_platdata (live_tree pw) dev priv).2.host.buswidth
        = fdtdec_get_int dev.node "bus-width" 4 ∧
    (fdt_getprop dev.node "bus-width" = none →
      (rockchip_dwmmc_ofdata_to_platdata (live_tree pw) dev priv).2.host.buswidth = 4) ∧
    (∀ v rest, fdt_getprop dev.node "bus-width" = some (v :: rest) →
      (rockchip_dwmmc_ofdata_to_platdata (live_tree pw) dev priv).2.host.buswidth = to_int v) ∧
    ((fdt_getprop dev.node "non-removable").isSome = true →
      (rockchip_dwmmc_ofdata_to_platdata (live_tree pw) dev priv).2.host.dev_index = 0) ∧
    (fdt_getprop dev.node "non-removable" = none →
      (rockchip_dwmmc_ofdata_to_platdata (live_tree pw) dev priv).2.host.dev_index = 1) := by
  have hbw := ofdata_host_buswidth pw dev priv
  have hidx := ofdata_host_dev_index pw dev priv
  refine ⟨hbw, ?_, ?_, ?_, ?_⟩
  · intro h
    rw [hbw, fdtdec_get_int_absent _ _ _ h]
  · intro v rest h
    rw [hbw]
    simp [fdtdec_get_int, h]
  · intro h
    rw [hidx]
    simp [fdtdec_get_bool, h]
  · intro h
    rw [hidx]
    simp [fdtdec_get_bool, h]

/-- Witness for C6: the eMMC node has no `bus-width` and carries `non-removable`; the
end-to-end node has `bus-width = 8` and no `non-removable`. -/
theorem ofdata_buswidth_dev_index_witness :
    (rockchip_dwmmc_ofdata_to_platdata (live_tree false) dev_emmc priv0).2.host.buswidth = 4 ∧
    (rockchip_dwmmc_ofdata_to_platdata (live_tree false) dev_emmc priv0).2.host.dev_index = 0 ∧
    (rockchip_dwmmc_ofdata_to_platdata (live_tree false) dev_e2e priv0).2.host.buswidth
      = to_int 8 ∧
    (rockchip_dwmmc_ofdata_to_platdata (live_tree false) dev_e2e priv0).2.host.dev_index = 1 :=
  ⟨(ofdata_buswidth_dev_index false dev_emmc priv0).2.1 (by decide),
   (ofdata_buswidth_dev_index false dev_emmc priv0).2.2.2.1 (by decide),
   (ofdata_buswidth_dev_index false dev_e2e priv0).2.2.1 8 [] (by decide),
   (ofdata_buswidth_dev_index false dev_e2e priv0).2.2.2.2 (by decide)⟩

/-! ## Clock adapter -/

theorem to_int_of_range (x : Int) (h0 : -2147483648 ≤ x) (h1 : x < 2147483648) :
    to_int x = x := by
  unfold to_int
  omega

theorem to_u32_neg (e : Int) (h0 : -2147483648 ≤ e) (h1 : e < 0) :
    ((to_u32 e : Nat) : Int) = e + 4294967296 := by
  unfold to_u32
  omega

/-- C4, contradicted as stated: with a clock framework that achieves 48 MHz for a request
of 50 MHz, the adapter returns the requested 50 MHz, not the achieved rate. -/
theorem get_mmc_clk_not_achieved_rate :
    (env_rate 48000000).respond [] (.clk_set_rate 50000000) = 48000000 ∧
    (rockchip_dwmmc_get_mmc_clk (env_rate 48000000) [] 50000000).1 = 50000000 ∧
    (rockchip_dwmmc_get_mmc_clk (env_rate 48000000) [] 50000000).1 ≠ 48000000 := by
  decide

/-- C4, amended: for every requested frequency `freq` and every clock state in which
`clk_set_rate` succeeds (returns a rate `0 ≤ r`), the adapter makes that single call and
returns the requested frequency `freq`, whatever the achieved rate `r` is. -/
theorem get_mmc_clk_returns_requested (env : Env) (tr : List Event) (freq : Nat) (r : Int)
    (hr : env.respond tr (.clk_set_rate freq) = r) (h0 : 0 ≤ r) (h1 : r < 2147483648) :
    rockchip_dwmmc_get_mmc_clk env tr freq = (freq, tr ++ [.clk_set_rate freq]) := by
  unfold rockchip_dwmmc_get_mmc_clk call
  simp only [hr]
  rw [to_int_of_range r (by omega) h1]
  simp [not_lt.mpr h0]

/-- Witness for the amended C4: a request of 50 MHz answered with 48 MHz. -/
theorem get_mmc_clk_returns_requested_witness :
    rockchip_dwmmc_get_mmc_clk (env_rate 48000000) [] 50000000
      = (50000000, [.clk_set_rate 50000000]) :=
  get_mmc_clk_returns_requested (env_rate 48000000) [] 50000000 48000000 rfl
    (by decide) (by decide)

/-- C5: when `clk_set_rate` fails with a negative code `e`, the adapter calls it exactly
once, logs the error, and returns `e` through its unsigned 32-bit result: the value
`e mod 2^32`, which converts back to `e` as a signed `int`; the value lies in the upper half
of the `uint` range and differs from every requested frequency below 2^31. -/
theorem get_mmc_clk_propagates_error (env : Env) (tr : List Event) (freq : Nat) (e : Int)
    (he : env.respond tr (.clk_set_rate freq) = e) (h0 : -2147483648 ≤ e) (h1 : e < 0) :
    (rockchip_dwmmc_get_mmc_clk env tr freq).1 = (e % 4294967296).toNat ∧
    to_int ((rockchip_dwmmc_get_mmc_clk env tr freq).1 : Int) = e ∧
    (rockchip_dwmmc_get_mmc_clk env tr freq).2
      = tr ++ [.clk_set_rate freq, .debug "rockchip_dwmmc_get_mmc_clk" e] ∧
    ((rockchip_dwmmc_get_mmc_clk env tr freq).2.drop tr.length).countP is_clk_set_rate = 1 ∧
    2147483648 ≤ (rockchip_dwmmc_get_mmc_clk env tr freq).1 ∧
    (freq < 2147483648 → (rockchip_dwmmc_get_mmc_clk env tr freq).1 ≠ freq) := by
  have hres : rockchip_dwmmc_get_mmc_clk env tr freq
      = (to_u32 e, tr ++ [.clk_set_rate freq, .debug "rockchip_dwmmc_get_mmc_clk" e]) := by
    unfold rockchip_dwmmc_get_mmc_clk call
    simp only [he]
    rw [to_int_of_range e h0 (by omega)]
    simp [h1]
  have hu := to_u32_neg e h0 h1
  rw [hres]
  refine ⟨rfl, ?_, rfl, ?_, ?_, ?_⟩
  · show to_int ((to_u32 e : Nat) : Int) = e
    rw [hu]
    unfold to_int
    omega
  · simp [is_clk_set_rate, List.countP_cons]
  · show 2147483648 ≤ to_u32 e
    omega
  · intro hf
    show to_u32 e ≠ freq
    omega

/-- Witness for C5: `clk_set_rate` failing with `-EINVAL` on a request of 50 MHz. -/
theorem get_mmc_clk_propagates_error_witness :
    (rockchip_dwmmc_get_mmc_clk (env_rate (-22)) [] 50000000).1 = 4294967274 ∧
    to_int ((rockchip_dwmmc_get_mmc_clk (env_rate (-22)) [] 50000000).1 : Int) = -22 :=
  ⟨(get_mmc_clk_propagates_error (env_rate (-22)) [] 50000000 (-22) rfl
      (by decide) (by decide)).1,
   (get_mmc_clk_propagates_error (env_rate (-22)) [] 50000000 (-22) rfl
      (by decide) (by decide)).2.1⟩

/-! ## Power-sequence adapter -/

theorem pwrseq_set_power_fail (env : Env) (tr : List Event) (dev : udevice) (enable : Bool)
    (h : env.respond tr (.gpio_request_by_name dev.name "reset-gpios" 0) ≠ 0) :
    rockchip_dwmmc_pwrseq_set_power env tr dev enable
      = (env.respond tr (.gpio_request_by_name dev.name "reset-gpios" 0),
         tr ++ [.gpio_request_by_name dev.name "reset-gpios" 0]) := by
  unfold rockchip_dwmmc_pwrseq_set_power call
  simp [h]

theorem pwrseq_set_power_ok (env : Env) (tr : List Event) (dev : udevice) (enable : Bool)
    (h : env.respond tr (.gpio_request_by_name dev.name "reset-gpios" 0) = 0) :
    rockchip_dwmmc_pwrseq_set_power env tr dev enable
      = (0, tr ++ [.gpio_request_by_name dev.name "reset-gpios" 0, .dm_gpio_set_value 1,
          .udelay 1, .dm_gpio_set_value 0, .udelay 200]) := by
  unfold rockchip_dwmmc_pwrseq_set_power call
  simp [h]

/-- C7: called with `enable = true`, the power-sequence adapter requests the `reset-gpios`
line; if the request fails it returns that non-zero code with no GPIO write and no delay;
otherwise it performs exactly: set GPIO to 1, delay 1 us, set GPIO to 0, delay 200 us, in
that order, and returns 0. -/
theorem pwrseq_set_power_sequence (env : Env) (tr : List Event) (dev : udevice) :
    (env.respond tr (.gpio_request_by_name dev.name "reset-gpios" 0) ≠ 0 →
      (rockchip_dwmmc_pwrseq_set_power env tr dev true).1
          = env.respond tr (.gpio_request_by_name dev.name "reset-gpios" 0) ∧
      (rockchip_dwmmc_pwrseq_set_power env tr dev true).1 ≠ 0 ∧
      (rockchip_dwmmc_pwrseq_set_power env tr dev true).2
          = tr ++ [.gpio_request_by_name dev.name "reset-gpios" 0] ∧
      ((rockchip_dwmmc_pwrseq_set_power env tr dev true).2.drop tr.length).filter
          is_write_or_delay = []) ∧
    (env.respond tr (.gpio_request_by_name dev.name "reset-gpios" 0) = 0 →
      (rockchip_dwmmc_pwrseq_set_power env tr dev true).1 = 0 ∧
      (rockchip_dwmmc_pwrseq_set_power env tr dev true).2
          = tr ++ [.gpio_request_by_name dev.name "reset-gpios" 0, .dm_gpio_set_value 1,
              .udelay 1, .dm_gpio_set_value 0, .udelay 200] ∧
      ((rockchip_dwmmc_pwrseq_set_power env tr dev true).2.drop tr.length).filter
          is_write_or_delay
        = [.dm_gpio_set_value 1, .udelay 1, .dm_gpio_set_value 0, .udelay 200]) := by
  constructor
  · intro h
    rw [pwrseq_set_power_fail env tr dev true h]
    refine ⟨rfl, h, rfl, ?_⟩
    simp [is_write_or_delay]
  · intro h
    rw [pwrseq_set_power_ok env tr dev true h]
    refine ⟨rfl, rfl, ?_⟩
    simp [is_write_or_delay]

/-- Witness for C7: one device without `reset-gpios` (request fails with `-ENOENT`) and
one whose request succeeds. -/
theorem pwrseq_set_power_sequence_witness :
    ((rockchip_dwmmc_pwrseq_set_power env_no_reset_gpios [] dev_emmc true).1 = -2 ∧
      (rockchip_dwmmc_pwrseq_set_power env_no_reset_gpios [] dev_emmc true).2
        = [.gpio_request_by_name "dwmmc@1" "reset-gpios" 0]) ∧
    ((rockchip_dwmmc_pwrseq_set_power env_ok [] dev_emmc true).1 = 0 ∧
      (rockchip_dwmmc_pwrseq_set_power env_ok [] dev_emmc true).2
        = [.gpio_request_by_name "dwmmc@1" "reset-gpios" 0, .dm_gpio_set_value 1,
            .udelay 1, .dm_gpio_set_value 0, .udelay 200]) :=
  ⟨⟨((pwrseq_set_power_sequence env_no_reset_gpios [] dev_emmc).1 (by decide)).1,
    ((pwrseq_set_power_sequence env_no_reset_gpios [] dev_emmc).1 (by decide)).2.2.1⟩,
   ⟨((pwrseq_set_power_sequence env_ok [] dev_emmc).2 (by decide)).1,
    ((pwrseq_set_power_sequence env_ok [] dev_emmc).2 (by decide)).2.1⟩⟩

/-- C10: the power-sequence adapter does not depend on its `enable` argument: with
`enable = false` it returns the same value and leaves the same trace as with
`enable = true`, and its GPIO writes and delays are again assert, 1 us, deassert, 200 us
whenever the GPIO request succeeds (and none when it fails). -/
theorem pwrseq_set_power_ignores_enable (env : Env) (tr : List Event) (dev : udevice) :
    rockchip_dwmmc_pwrseq_set_power env tr dev false
      = rockchip_dwmmc_pwrseq_set_power env tr dev true ∧
    ((rockchip_dwmmc_pwrseq_set_power env tr dev false).2.drop tr.length).filter
        is_write_or_delay
      = if env.respond tr (.gpio_request_by_name dev.name "reset-gpios" 0) = 0 then
          [.dm_gpio_set_value 1, .udelay 1, .dm_gpio_set_value 0, .udelay 200]
        else [] := by
  constructor
  · rfl
  · by_cases h : env.respond tr (.gpio_request_by_name dev.name "reset-gpios" 0) = 0
    · rw [pwrseq_set_power_ok env tr dev false h]
      simp [h, is_write_or_delay]
    · rw [pwrseq_set_power_fail env tr dev false h]
      simp [h, is_write_or_delay]

/-! ## Probe -/

theorem probe_get_clk_ret (c : Config) (env : Env) (dev : udevice) (s : drv_state)
    (tr : List Event) :
    (probe_get_clk c env dev s tr).1 = clk_get_ret c env dev s tr := by
  unfold probe_get_clk clk_get_ret clk_preamble clk_get_event call
  cases c.OF_PLATDATA <;> simp

theorem probe_get_clk_trace (c : Config) (env : Env) (dev : udevice) (s : drv_state)
    (tr : List Event) :
    (probe_get_clk c env dev s tr).2.2 = after_clk c dev s tr := by
  unfold probe_get_clk after_clk clk_preamble clk_get_event call
  cases c.OF_PLATDATA <;> simp

theorem probe_get_clk_plat (c : Config) (env : Env) (dev : udevice) (s : drv_state)
    (tr : List Event) :
    (probe_get_clk c env dev s tr).2.1.plat = s.plat := by
  unfold probe_get_clk
  cases c.OF_PLATDATA <;> simp

theorem probe_get_clk_fifoth (c : Config) (env : Env) (dev : udevice) (s : drv_state)
    (tr : List Event) :
    (probe_get_clk c env dev s tr).2.1.priv.host.fifoth_val = s.priv.host.fifoth_val := by
  unfold probe_get_clk
  cases c.OF_PLATDATA
  · simp only [Bool.false_eq_true, if_false]
    split <;> rfl
  · simp only [if_true]
    split <;> rfl

theorem probe_get_clk_depth (c : Config) (env : Env) (dev : udevice) (s : drv_state)
    (tr : List Event) :
    (probe_get_clk c env dev s tr).2.1.priv.fifo_depth = depth_at_probe c s := by
  unfold probe_get_clk depth_at_probe
  cases c.OF_PLATDATA
  · simp only [Bool.false_eq_true, if_false]
    split <;> rfl
  · simp only [if_true]
    split <;> rfl

theorem probe_get_clk_minmax (c : Config) (env : Env) (dev : udevice) (s : drv_state)
    (tr : List Event) :
    (probe_get_clk c env dev s tr).2.1.priv.minmax = minmax_at_probe c s := by
  unfold probe_get_clk minmax_at_probe
  cases c.OF_PLATDATA
  · simp only [Bool.false_eq_true, if_false]
    split <;> rfl
  · simp only [if_true]
    split <;> rfl

theorem probe_get_clk_buswidth (c : Config) (env : Env) (dev : udevice) (s : drv_state)
    (tr : List Event) :
    (probe_get_clk c env dev s tr).2.1.priv.host.buswidth = buswidth_at_probe c s := by
  unfold probe_get_clk buswidth_at_probe
  cases c.OF_PLATDATA
  · simp only [Bool.false_eq_true, if_false]
    split <;> rfl
  · simp only [if_true]
    split <;> rfl

theorem probe_get_clk_caps (c : Config) (env : Env) (dev : udevice) (s : drv_state)
    (tr : List Event) :
    (probe_get_clk c env dev s tr).2.1.priv.host.caps = s.priv.host.caps := by
  unfold probe_get_clk
  cases c.OF_PLATDATA
  · simp only [Bool.false_eq_true, if_false]
    split <;> rfl
  · simp only [if_true]
    split <;> rfl

theorem probe_of_clk_fail (c : Config) (L : FifothLayout) (env : Env) (dev : udevice)
    (s : drv_state) (tr : List Event) (h : clk_get_ret c env dev s tr < 0) :
    rockchip_dwmmc_probe c L env dev s tr = probe_get_clk c env dev s tr := by
  unfold rockchip_dwmmc_probe
  simp [probe_get_clk_ret, h]

theorem probe_of_pwrseq_abort (c : Config) (L : FifothLayout) (env : Env) (dev : udevice)
    (s : drv_state) (tr : List Event) (h : 0 ≤ clk_get_ret c env dev s tr)
    (ha : pwrseq_aborts c env dev (after_clk c dev s tr)) :
    rockchip_dwmmc_probe c L env dev s tr
      = (env.respond (after_clk c dev s tr ++ [pwrseq_lookup dev]) (.pwrseq_set_power true),
         probe_set_fifoth L (probe_get_clk c env dev s tr).2.1,
         after_clk c dev s tr ++ [pwrseq_lookup dev, .pwrseq_set_power true]) := by
  obtain ⟨hp, hl, hq⟩ := ha
  unfold pwrseq_lookup at hl hq
  unfold rockchip_dwmmc_probe call pwrseq_lookup
  simp [probe_get_clk_ret, probe_get_clk_trace, not_lt.mpr h, hp, hl, hq]

theorem probe_of_continue (c : Config) (L : FifothLayout) (env : Env) (dev : udevice)
    (s : drv_state) (tr : List Event) (h : 0 ≤ clk_get_ret c env dev s tr)
    (ha : ¬ pwrseq_aborts c env dev (after_clk c dev s tr)) :
    rockchip_dwmmc_probe c L env dev s tr
      = probe_finish env dev (probe_set_fifoth L (probe_get_clk c env dev s tr).2.1)
          (after_clk c dev s tr ++ pwrseq_events c env dev (after_clk c dev s tr)) := by
  unfold pwrseq_aborts pwrseq_lookup at ha
  unfold rockchip_dwmmc_probe call pwrseq_events pwrseq_lookup
  simp only [probe_get_clk_ret, probe_get_clk_trace, not_lt.mpr h, if_false]
  cases hp : c.PWRSEQ
  · simp
  · by_cases hl : env.respond (after_clk c dev s tr)
        (.uclass_get_device_by_phandle dev.name "mmc-pwrseq") = 0
    · have hq : env.respond (after_clk c dev s tr ++
          [.uclass_get_device_by_phandle dev.name "mmc-pwrseq"]) (.pwrseq_set_power true) = 0 := by
        by_contra hne
        exact ha ⟨hp, hl, hne⟩
      simp [hl, hq]
    · simp [hl]

theorem probe_finish_eq (env : Env) (dev : udevice) (s : drv_state) (t : List Event) :
    (probe_finish env dev s t).1
        = env.respond (t ++ [.dwmci_setup_cfg dev.name s.priv.host.buswidth s.priv.host.caps
            s.priv.minmax.2 s.priv.minmax.1]) (.dwmci_probe dev.name) ∧
    (probe_finish env dev s t).2.2
        = t ++ [.dwmci_setup_cfg dev.name s.priv.host.buswidth s.priv.host.caps
            s.priv.minmax.2 s.priv.minmax.1, .dwmci_probe dev.name] ∧
    (probe_finish env dev s t).2.1.plat.cfg.f_min = s.priv.minmax.1 ∧
    (probe_finish env dev s t).2.1.plat.cfg.f_max = s.priv.minmax.2 ∧
    (probe_finish env dev s t).2.1.priv.host.fifoth_val = s.priv.host.fifoth_val ∧
    (probe_finish env dev s t).2.1.priv.host.buswidth = s.priv.host.buswidth ∧
    (probe_finish env dev s t).2.1.priv.host.dev_index = s.priv.host.dev_index ∧
    (probe_finish env dev s t).2.1.priv.fifo_depth = s.priv.fifo_depth := by
  unfold probe_finish call dwmci_setup_cfg
  simp

theorem probe_set_fifoth_eq (L : FifothLayout) (s : drv_state) :
    (probe_set_fifoth L s).priv.host.fifoth_val = fifoth_of_depth L s.priv.fifo_depth ∧
    (probe_set_fifoth L s).priv.host.buswidth = s.priv.host.buswidth ∧
    (probe_set_fifoth L s).priv.host.dev_index = s.priv.host.dev_index ∧
    (probe_set_fifoth L s).priv.host.caps = s.priv.host.caps ∧
    (probe_set_fifoth L s).priv.minmax = s.priv.minmax ∧
    (probe_set_fifoth L s).priv.fifo_depth = s.priv.fifo_depth ∧
    (probe_set_fifoth L s).plat = s.plat := by
  unfold probe_set_fifoth
  simp

/-- Once the clock handle is acquired, the host holds the FIFO threshold value computed
from the depth, whether or not power sequencing later aborts probe. -/
theorem probe_fifoth_of_clk (c : Config) (L : FifothLayout) (env : Env) (dev : udevice)
    (s : drv_state) (tr : List Event) (h : 0 ≤ clk_get_ret c env dev s tr) :
    (rockchip_dwmmc_probe c L env dev s tr).2.1.priv.host.fifoth_val
        = fifoth_of_depth L (depth_at_probe c s) ∧
    (rockchip_dwmmc_probe c L env dev s tr).2.1.priv.fifo_depth = depth_at_probe c s := by
  by_cases ha : pwrseq_aborts c env dev (after_clk c dev s tr)
  · rw [probe_of_pwrseq_abort c L env dev s tr h ha]
    simp only [(probe_set_fifoth_eq L _).1, (probe_set_fifoth_eq L _).2.2.2.2.2.1,
      probe_get_clk_depth, and_self]
  · rw [probe_of_continue c L env dev s tr h ha]
    simp only [(probe_finish_eq env dev _ _).2.2.2.2.1, (probe_finish_eq env dev _ _).2.2.2.2.2.2.2,
      (probe_set_fifoth_eq L _).1, (probe_set_fifoth_eq L _).2.2.2.2.2.1,
      probe_get_clk_depth, and_self]

theorem upstream_fifoth_of_depth (D : Int) (n : Nat) (hn : D / 2 = n) (hD : 1 < D)
    (h2 : n < 4096) :
    fifoth_of_depth upstream_layout D = 536870912 + 65536 * (n - 1) + n := by
  have h1 : 1 ≤ n := by omega
  have htd : Int.tdiv D 2 = (n : Int) := by
    rw [Int.tdiv_eq_ediv (by omega) (by norm_num)]
    exact hn
  have e1 : (2 : Int) * 2 ^ 28 = ((536870912 : Nat) : Int) := by norm_num
  have e2 : ((n : Int) - 1) * 2 ^ 16 = ((65536 * (n - 1) : Nat) : Int) := by
    push_cast [Nat.cast_sub h1]
    ring
  have hor : 536870912 ||| 65536 * (n - 1) ||| n = 536870912 + 65536 * (n - 1) + n := by
    rw [Nat.lor_assoc]
    have a := @Nat.mul_add_lt_is_or 16 n (by omega) (n - 1)
    have b := @Nat.mul_add_lt_is_or 28 (2 ^ 16 * (n - 1) + n) (by omega) 2
    norm_num at a b
    rw [← a, ← b]
    omega
  unfold fifoth_of_depth upstream_layout
  simp only [htd, e1, e2]
  show to_u32 (((536870912 ||| 65536 * (n - 1) ||| n : Nat) : Int)) = _
  rw [hor]
  unfold to_u32
  omega

theorem drop_after_clk (c : Config) (dev : udevice) (s : drv_state) (tr l : List Event) :
    (after_clk c dev s tr ++ l).drop tr.length = clk_preamble c s ++ [clk_get_event c dev] ++ l := by
  unfold after_clk
  rw [List.append_assoc, List.append_assoc, List.drop_left, List.append_assoc]

theorem countP_clk_events (c : Config) (dev : udevice) (s : drv_state) :
    (clk_preamble c s ++ [clk_get_event c dev]).countP is_dwmci_probe = 0 ∧
    (clk_preamble c s ++ [clk_get_event c dev]).countP is_dwmci_setup_cfg = 0 := by
  unfold clk_preamble clk_get_event
  cases c.OF_PLATDATA <;> simp [is_dwmci_probe, is_dwmci_setup_cfg, List.countP_cons]

theorem countP_pwrseq_events (c : Config) (env : Env) (dev : udevice) (t : List Event) :
    (pwrseq_events c env dev t).countP is_dwmci_probe = 0 ∧
    (pwrseq_events c env dev t).countP is_dwmci_setup_cfg = 0 := by
  unfold pwrseq_events pwrseq_lookup
  cases c.PWRSEQ
  · simp
  · by_cases h : env.respond t (.uclass_get_device_by_phandle dev.name "mmc-pwrseq") = 0 <;>
      simp [h, is_dwmci_probe, is_dwmci_setup_cfg, List.countP_cons]

theorem probe_continue_eq (c : Config) (L : FifothLayout) (env : Env) (dev : udevice)
    (s : drv_state) (tr : List Event) (h : 0 ≤ clk_get_ret c env dev s tr)
    (ha : ¬ pwrseq_aborts c env dev (after_clk c dev s tr)) :
    (rockchip_dwmmc_probe c L env dev s tr).1
        = env.respond (after_clk c dev s tr ++ pwrseq_events c env dev (after_clk c dev s tr)
            ++ [setup_event c dev s]) (.dwmci_probe dev.name) ∧
    (rockchip_dwmmc_probe c L env dev s tr).2.2
        = after_clk c dev s tr ++ pwrseq_events c env dev (after_clk c dev s tr)
            ++ [setup_event c dev s, .dwmci_probe dev.name] ∧
    (rockchip_dwmmc_probe c L env dev s tr).2.1.plat.cfg.f_min = (minmax_at_probe c s).1 ∧
    (rockchip_dwmmc_probe c L env dev s tr).2.1.plat.cfg.f_max = (minmax_at_probe c s).2 ∧
    (rockchip_dwmmc_probe c L env dev s tr).2.1.priv.host.buswidth = buswidth_at_probe c s := by
  rw [probe_of_continue c L env dev s tr h ha]
  have hf := probe_finish_eq env dev (probe_set_fifoth L (probe_get_clk c env dev s tr).2.1)
    (after_clk c dev s tr ++ pwrseq_events c env dev (after_clk c dev s tr))
  have hs := probe_set_fifoth_eq L (probe_get_clk c env dev s tr).2.1
  rw [hs.2.1, hs.2.2.2.1, hs.2.2.2.2.1, probe_get_clk_buswidth, probe_get_clk_caps,
    probe_get_clk_minmax] at hf
  exact ⟨hf.1, hf.2.1, hf.2.2.1, hf.2.2.2.1, hf.2.2.2.2.2.1⟩

theorem fifoth_fields (n : Nat) (h1 : 1 ≤ n) (h2 : n < 4096) :
    (536870912 + 65536 * (n - 1) + n) / 65536 % 4096 = n - 1 ∧
    (536870912 + 65536 * (n - 1) + n) % 4096 = n ∧
    (536870912 + 65536 * (n - 1) + n) / 268435456 % 8 = 2 := by
  have a : (536870912 + 65536 * (n - 1) + n) / 65536 = 8192 + (n - 1) :=
    Nat.div_eq_of_lt_le (by omega) (by omega)
  have b : (536870912 + 65536 * (n - 1) + n) / 268435456 = 2 :=
    Nat.div_eq_of_lt_le (by omega) (by omega)
  rw [a, b]
  exact ⟨by omega, by omega, rfl⟩

/-- C2: for every FIFO depth `D > 1` held in the private data, probe (once the clock
handle is acquired) stores `MSIZE(2) | RX_WMARK(D/2 - 1) | TX_WMARK(D/2)` into
`host->fifoth_val`; with the upstream field layout and `D/2 < 4096` the RX watermark field
is `D/2 - 1`, the TX watermark field is `D/2` and the MSIZE field is 2; and any two probes
with the same depth obtain the same value. -/
theorem probe_fifoth_watermarks (c : Config) (env : Env) (dev : udevice) (s : drv_state)
    (tr : List Event) (hclk : 0 ≤ clk_get_ret c env dev s tr)
    (hD : 1 < depth_at_probe c s) :
    (∀ L : FifothLayout,
      (rockchip_dwmmc_probe c L env dev s tr).2.1.priv.fifo_depth = depth_at_probe c s ∧
      (rockchip_dwmmc_probe c L env dev s tr).2.1.priv.host.fifoth_val
        = to_u32 (Int.lor (Int.lor (L.MSIZE 2) (L.RX_WMARK (depth_at_probe c s / 2 - 1)))
            (L.TX_WMARK (depth_at_probe c s / 2)))) ∧
    (depth_at_probe c s / 2 < 4096 →
      (rx_wmark_field (rockchip_dwmmc_probe c upstream_layout env dev s tr).2.1.priv.host.fifoth_val
          : Int) = depth_at_probe c s / 2 - 1 ∧
      (tx_wmark_field (rockchip_dwmmc_probe c upstream_layout env dev s tr).2.1.priv.host.fifoth_val
          : Int) = depth_at_probe c s / 2 ∧
      msize_field (rockchip_dwmmc_probe c upstream_layout env dev s tr).2.1.priv.host.fifoth_val
        = 2) ∧
    (∀ (L : FifothLayout) (c2 : Config) (env2 : Env) (dev2 : udevice) (s2 : drv_state)
        (tr2 : List Event),
      0 ≤ clk_get_ret c2 env2 dev2 s2 tr2 → depth_at_probe c2 s2 = depth_at_probe c s →
      (rockchip_dwmmc_probe c2 L env2 dev2 s2 tr2).2.1.priv.host.fifoth_val
        = (rockchip_dwmmc_probe c L env dev s tr).2.1.priv.host.fifoth_val) := by
  refine ⟨?_, ?_, ?_⟩
  · intro L
    refine ⟨(probe_fifoth_of_clk c L env dev s tr hclk).2, ?_⟩
    rw [(probe_fifoth_of_clk c L env dev s tr hclk).1]
    unfold fifoth_of_depth
    rw [Int.tdiv_eq_ediv (by omega) (by norm_num)]
  · intro hlt
    obtain ⟨n, hn⟩ := Int.eq_ofNat_of_zero_le (show 0 ≤ depth_at_probe c s / 2 by omega)
    have h2 : n < 4096 := by omega
    have h1 : 1 ≤ n := by omega
    rw [(probe_fifoth_of_clk c upstream_layout env dev s tr hclk).1,
      upstream_fifoth_of_depth _ n hn hD h2]
    have hf := fifoth_fields n h1 h2
    have hr : rx_wmark_field (536870912 + 65536 * (n - 1) + n) = n - 1 := by
      unfold rx_wmark_field
      norm_num
      exact hf.1
    have ht : tx_wmark_field (536870912 + 65536 * (n - 1) + n) = n := by
      unfold tx_wmark_field
      norm_num
      exact hf.2.1
    have hm : msize_field (536870912 + 65536 * (n - 1) + n) = 2 := by
      unfold msize_field
      norm_num
      exact hf.2.2
    rw [hr, ht, hm]
    refine ⟨?_, ?_, rfl⟩
    · omega
    · omega
  · intro L c2 env2 dev2 s2 tr2 hclk2 hd
    rw [(probe_fifoth_of_clk c L env dev s tr hclk).1,
      (probe_fifoth_of_clk c2 L env2 dev2 s2 tr2 hclk2).1, hd]

/-- Witness for C2: the end-to-end device with depth 32 has RX watermark 15, TX
watermark 16 and MSIZE 2. -/
theorem probe_fifoth_watermarks_witness :
    (rx_wmark_field (rockchip_dwmmc_probe (live_tree true) upstream_layout env_ok dev_e2e
        state_e2e []).2.1.priv.host.fifoth_val : Int) = 15 ∧
    (tx_wmark_field (rockchip_dwmmc_probe (live_tree true) upstream_layout env_ok dev_e2e
        state_e2e []).2.1.priv.host.fifoth_val : Int) = 16 ∧
    msize_field (rockchip_dwmmc_probe (live_tree true) upstream_layout env_ok dev_e2e
        state_e2e []).2.1.priv.host.fifoth_val = 2 :=
  (probe_fifoth_watermarks (live_tree true) env_ok dev_e2e state_e2e [] (by decide)
    (by decide)).2.1 (by decide)

/-- C8: probe propagates errors in sequence. If acquiring the clock handle at index 0
fails with a negative code, probe returns that code having made no further call and
without touching the watermark or the configuration. If power sequencing is compiled in,
the power-sequence device resolves and `pwrseq_set_power` returns a non-zero code, probe
returns that code without calling `dwmci_setup_cfg` or `dwmci_probe`. In every remaining
case probe calls `dwmci_probe` exactly once, as its last call, and returns exactly the
code `dwmci_probe` returned. -/
theorem probe_error_propagation (c : Config) (L : FifothLayout) (env : Env) (dev : udevice)
    (s : drv_state) (tr : List Event) :
    (clk_get_ret c env dev s tr < 0 →
      (rockchip_dwmmc_probe c L env dev s tr).1 = clk_get_ret c env dev s tr ∧
      (rockchip_dwmmc_probe c L env dev s tr).2.2 = after_clk c dev s tr ∧
      (rockchip_dwmmc_probe c L env dev s tr).2.1.priv.host.fifoth_val
        = s.priv.host.fifoth_val ∧
      (rockchip_dwmmc_probe c L env dev s tr).2.1.plat = s.plat ∧
      ((rockchip_dwmmc_probe c L env dev s tr).2.2.drop tr.length).countP is_dwmci_setup_cfg
        = 0 ∧
      ((rockchip_dwmmc_probe c L env dev s tr).2.2.drop tr.length).countP is_dwmci_probe
        = 0) ∧
    (0 ≤ clk_get_ret c env dev s tr → pwrseq_aborts c env dev (after_clk c dev s tr) →
      (rockchip_dwmmc_probe c L env dev s tr).1
        = env.respond (after_clk c dev s tr ++ [pwrseq_lookup dev]) (.pwrseq_set_power true) ∧
      (rockchip_dwmmc_probe c L env dev s tr).1 ≠ 0 ∧
      (rockchip_dwmmc_probe c L env dev s tr).2.2
        = after_clk c dev s tr ++ [pwrseq_lookup dev, .pwrseq_set_power true] ∧
      (rockchip_dwmmc_probe c L env dev s tr).2.1.plat = s.plat ∧
      ((rockchip_dwmmc_probe c L env dev s tr).2.2.drop tr.length).countP is_dwmci_setup_cfg
        = 0 ∧
      ((rockchip_dwmmc_probe c L env dev s tr).2.2.drop tr.length).countP is_dwmci_probe
        = 0) ∧
    (0 ≤ clk_get_ret c env dev s tr → ¬ pwrseq_aborts c env dev (after_clk c dev s tr) →
      (rockchip_dwmmc_probe c L env dev s tr).2.2
        = after_clk c dev s tr ++ pwrseq_events c env dev (after_clk c dev s tr)
            ++ [setup_event c dev s, .dwmci_probe dev.name] ∧
      (rockchip_dwmmc_probe c L env dev s tr).1
        = env.respond (after_clk c dev s tr ++ pwrseq_events c env dev (after_clk c dev s tr)
            ++ [setup_event c dev s]) (.dwmci_probe dev.name) ∧
      ((rockchip_dwmmc_probe c L env dev s tr).2.2.drop tr.length).countP is_dwmci_probe
        = 1) := by
  refine ⟨?_, ?_, ?_⟩
  · intro h
    have e := probe_of_clk_fail c L env dev s tr h
    have hd := drop_after_clk c dev s tr []
    rw [List.append_nil, List.append_nil] at hd
    refine ⟨by rw [e, probe_get_clk_ret], by rw [e, probe_get_clk_trace],
      by rw [e, probe_get_clk_fifoth], by rw [e, probe_get_clk_plat], ?_, ?_⟩
    · rw [e, probe_get_clk_trace, hd]
      exact (countP_clk_events c dev s).2
    · rw [e, probe_get_clk_trace, hd]
      exact (countP_clk_events c dev s).1
  · intro h ha
    rw [probe_of_pwrseq_abort c L env dev s tr h ha]
    simp only [(probe_set_fifoth_eq L _).2.2.2.2.2.2, probe_get_clk_plat, drop_after_clk]
    refine ⟨trivial, ha.2.2, trivial, trivial, ?_, ?_⟩
    · rw [List.countP_append, (countP_clk_events c dev s).2]
      simp [pwrseq_lookup, is_dwmci_setup_cfg, List.countP_cons]
    · rw [List.countP_append, (countP_clk_events c dev s).1]
      simp [pwrseq_lookup, is_dwmci_probe, List.countP_cons]
  · intro h ha
    have hc := probe_continue_eq c L env dev s tr h ha
    refine ⟨hc.2.1, hc.1, ?_⟩
    rw [hc.2.1, List.append_assoc, drop_after_clk, List.countP_append,
      (countP_clk_events c dev s).1, List.countP_append,
      (countP_pwrseq_events c env dev _).1]
    simp [setup_event, is_dwmci_probe, List.countP_cons]

/-- Witness for C8: a clock acquisition failing with `-ENOENT`, a power sequence failing
with `-EIO`, and a run that reaches `dwmci_probe`, which times out. -/
theorem probe_error_propagation_witness :
    ((rockchip_dwmmc_probe (live_tree true) upstream_layout env_no_clk dev_e2e state_e2e []).1
        = -2 ∧
      (rockchip_dwmmc_probe (live_tree true) upstream_layout env_no_clk dev_e2e state_e2e []).2.2
        = [.clk_get_by_index "dwmmc@ff0c0000" 0]) ∧
    ((rockchip_dwmmc_probe (live_tree true) upstream_layout env_pwrseq_fails dev_e2e state_e2e
        []).1 = -5 ∧
      (rockchip_dwmmc_probe (live_tree true) upstream_layout env_pwrseq_fails dev_e2e state_e2e
        []).2.2 = [.clk_get_by_index "dwmmc@ff0c0000" 0,
          .uclass_get_device_by_phandle "dwmmc@ff0c0000" "mmc-pwrseq", .pwrseq_set_power true]) ∧
    ((rockchip_dwmmc_probe (live_tree true) upstream_layout env_dwmci_fails dev_e2e state_e2e
        []).1 = -110 ∧
      (rockchip_dwmmc_probe (live_tree true) upstream_layout env_dwmci_fails dev_e2e state_e2e
        []).2.2 = [.clk_get_by_index "dwmmc@ff0c0000" 0,
          .uclass_get_device_by_phandle "dwmmc@ff0c0000" "mmc-pwrseq", .pwrseq_set_power true,
          .dwmci_setup_cfg "dwmmc@ff0c0000" 8 0 400000 52000000,
          .dwmci_probe "dwmmc@ff0c0000"]) :=
  ⟨⟨((probe_error_propagation (live_tree true) upstream_layout env_no_clk dev_e2e state_e2e
        []).1 (by decide)).1,
    ((probe_error_propagation (live_tree true) upstream_layout env_no_clk dev_e2e state_e2e
        []).1 (by decide)).2.1⟩,
   ⟨((probe_error_propagation (live_tree true) upstream_layout env_pwrseq_fails dev_e2e
        state_e2e []).2.1 (by decide) ⟨rfl, by decide, by decide⟩).1,
    ((probe_error_propagation (live_tree true) upstream_layout env_pwrseq_fails dev_e2e
        state_e2e []).2.1 (by decide) ⟨rfl, by decide, by decide⟩).2.2.1⟩,
   ⟨((probe_error_propagation (live_tree true) upstream_layout env_dwmci_fails dev_e2e
        state_e2e []).2.2 (by decide) (fun h => absurd rfl h.2.2)).2.1,
    ((probe_error_propagation (live_tree true) upstream_layout env_dwmci_fails dev_e2e
        state_e2e []).2.2 (by decide) (fun h => absurd rfl h.2.2)).1⟩⟩

/-- C9, contradicted as stated: when the `mmc-pwrseq` phandle lookup fails with `-ENOENT`,
probe does not return an error; it goes on to `dwmci_setup_cfg` and `dwmci_probe` and
returns 0. -/
theorem probe_swallows_lookup_failure :
    env_no_pwrseq.respond [.clk_get_by_index "dwmmc@ff0c0000" 0]
        (.uclass_get_device_by_phandle "dwmmc@ff0c0000" "mmc-pwrseq") = -2 ∧
    (rockchip_dwmmc_probe (live_tree true) upstream_layout env_no_pwrseq dev_e2e state_e2e []).1
        = 0 ∧
    ¬ (rockchip_dwmmc_probe (live_tree true) upstream_layout env_no_pwrseq dev_e2e state_e2e
        []).1 < 0 ∧
    (rockchip_dwmmc_probe (live_tree true) upstream_layout env_no_pwrseq dev_e2e state_e2e []).2.2
        = [.clk_get_by_index "dwmmc@ff0c0000" 0,
            .uclass_get_device_by_phandle "dwmmc@ff0c0000" "mmc-pwrseq",
            .dwmci_setup_cfg "dwmmc@ff0c0000" 8 0 400000 52000000,
            .dwmci_probe "dwmmc@ff0c0000"] := by
  decide

/-- C9, amended: a failure of `clk_get_by_index` (negative code), of `pwrseq_set_power`
(non-zero code) or of `dwmci_probe` is returned by probe as that same code, the first two
immediately with no further call; a failure of the `mmc-pwrseq` phandle lookup is not
returned: probe skips power sequencing and continues with `dwmci_setup_cfg` and
`dwmci_probe`, whose code it returns. -/
theorem probe_failure_policy (c : Config) (L : FifothLayout) (env : Env) (dev : udevice)
    (s : drv_state) (tr : List Event) :
    (clk_get_ret c env dev s tr < 0 →
      (rockchip_dwmmc_probe c L env dev s tr).1 = clk_get_ret c env dev s tr ∧
      (rockchip_dwmmc_probe c L env dev s tr).1 < 0 ∧
      (rockchip_dwmmc_probe c L env dev s tr).2.2 = after_clk c dev s tr) ∧
    (0 ≤ clk_get_ret c env dev s tr → pwrseq_aborts c env dev (after_clk c dev s tr) →
      (rockchip_dwmmc_probe c L env dev s tr).1
        = env.respond (after_clk c dev s tr ++ [pwrseq_lookup dev]) (.pwrseq_set_power true) ∧
      (rockchip_dwmmc_probe c L env dev s tr).2.2
        = after_clk c dev s tr ++ [pwrseq_lookup dev, .pwrseq_set_power true]) ∧
    (0 ≤ clk_get_ret c env dev s tr → ¬ pwrseq_aborts c env dev (after_clk c dev s tr) →
      (rockchip_dwmmc_probe c L env dev s tr).1
        = env.respond (after_clk c dev s tr ++ pwrseq_events c env dev (after_clk c dev s tr)
            ++ [setup_event c dev s]) (.dwmci_probe dev.name)) ∧
    (0 ≤ clk_get_ret c env dev s tr → c.PWRSEQ = true →
      env.respond (after_clk c dev s tr) (pwrseq_lookup dev) ≠ 0 →
      (rockchip_dwmmc_probe c L env dev s tr).2.2
        = after_clk c dev s tr ++ [pwrseq_lookup dev, setup_event c dev s,
            .dwmci_probe dev.name] ∧
      (rockchip_dwmmc_probe c L env dev s tr).1
        = env.respond (after_clk c dev s tr ++ [pwrseq_lookup dev, setup_event c dev s])
            (.dwmci_probe dev.name)) := by
  refine ⟨?_, ?_, ?_, ?_⟩
  · intro h
    have e := probe_of_clk_fail c L env dev s tr h
    refine ⟨by rw [e, probe_get_clk_ret], by rw [e, probe_get_clk_ret]; exact h,
      by rw [e, probe_get_clk_trace]⟩
  · intro h ha
    rw [probe_of_pwrseq_abort c L env dev s tr h ha]
    exact ⟨rfl, rfl⟩
  · intro h ha
    exact (probe_continue_eq c L env dev s tr h ha).1
  · intro h hp hl
    have ha : ¬ pwrseq_aborts c env dev (after_clk c dev s tr) := fun x => hl x.2.1
    have hc := probe_continue_eq c L env dev s tr h ha
    have he : pwrseq_events c env dev (after_clk c dev s tr) = [pwrseq_lookup dev] := by
      unfold pwrseq_events
      simp [hp, hl]
    rw [he] at hc
    refine ⟨?_, ?_⟩
    · rw [hc.2.1]
      simp
    · rw [hc.1]
      simp

/-- Witness for the amended C9: the four situations on the end-to-end device. -/
theorem probe_failure_policy_witness :
    (rockchip_dwmmc_probe (live_tree true) upstream_layout env_no_clk dev_e2e state_e2e []).1
        = -2 ∧
    (rockchip_dwmmc_probe (live_tree true) upstream_layout env_pwrseq_fails dev_e2e state_e2e
        []).1 = -5 ∧
    (rockchip_dwmmc_probe (live_tree true) upstream_layout env_dwmci_fails dev_e2e state_e2e
        []).1 = -110 ∧
    (rockchip_dwmmc_probe (live_tree true) upstream_layout env_no_pwrseq dev_e2e state_e2e
        []).1 = 0 :=
  ⟨((probe_failure_policy (live_tree true) upstream_layout env_no_clk dev_e2e state_e2e
      []).1 (by decide)).1,
   ((probe_failure_policy (live_tree true) upstream_layout env_pwrseq_fails dev_e2e state_e2e
      []).2.1 (by decide) ⟨rfl, by decide, by decide⟩).1,
   (probe_failure_policy (live_tree true) upstream_layout env_dwmci_fails dev_e2e state_e2e
      []).2.2.1 (by decide) (fun h => absurd rfl h.2.2),
   ((probe_failure_policy (live_tree true) upstream_layout env_no_pwrseq dev_e2e state_e2e
      []).2.2.2 (by decide) rfl (by decide)).2⟩

/-! ## Parsing followed by probe -/

theorem live_tree_vocabulary (pw : Bool) (env : Env) (dev : udevice) (s : drv_state)
    (tr : List Event) :
    clk_get_ret (live_tree pw) env dev s tr = env.respond tr (.clk_get_by_index dev.name 0) ∧
    after_clk (live_tree pw) dev s tr = tr ++ [.clk_get_by_index dev.name 0] ∧
    setup_event (live_tree pw) dev s
      = .dwmci_setup_cfg dev.name s.priv.host.buswidth s.priv.host.caps s.priv.minmax.2
          s.priv.minmax.1 ∧
    depth_at_probe (live_tree pw) s = s.priv.fifo_depth ∧
    minmax_at_probe (live_tree pw) s = s.priv.minmax ∧
    buswidth_at_probe (live_tree pw) s = s.priv.host.buswidth := by
  simp [clk_get_ret, after_clk, setup_event, depth_at_probe, minmax_at_probe,
    buswidth_at_probe, clk_preamble, clk_get_event, live_tree]

theorem probe_get_clk_live_host (pw : Bool) (env : Env) (dev : udevice) (s : drv_state)
    (tr : List Event) :
    (probe_get_clk (live_tree pw) env dev s tr).2.1.priv.host = s.priv.host := by
  unfold probe_get_clk live_tree
  simp only [Bool.false_eq_true, if_false]
  split <;> rfl

theorem probe_live_dev_index (pw : Bool) (L : FifothLayout) (env : Env) (dev : udevice)
    (s : drv_state) (tr : List Event) (h : 0 ≤ clk_get_ret (live_tree pw) env dev s tr)
    (ha : ¬ pwrseq_aborts (live_tree pw) env dev (after_clk (live_tree pw) dev s tr)) :
    (rockchip_dwmmc_probe (live_tree pw) L env dev s tr).2.1.priv.host.dev_index
      = s.priv.host.dev_index := by
  rw [probe_of_continue (live_tree pw) L env dev s tr h ha,
    (probe_finish_eq env dev _ _).2.2.2.2.2.2.1, (probe_set_fifoth_eq L _).2.2.1,
    probe_get_clk_live_host]

/-- C3, contradicted as stated: for the node `bus-width = 8`, `fifo-depth = 32`,
`clock-freq-min-max = [52000000, 400000]`, parsing followed by probe hands
`dwmci_setup_cfg` the maximum clock 400000 and the minimum clock 52000000, so the resulting
clock bounds (min, max) are (52000000, 400000), not (400000, 52000000). -/
theorem parse_probe_not_max_min_order :
    fdt_getprop dev_e2e.node "clock-freq-min-max" = some [52000000, 400000] ∧
    (rockchip_dwmmc_ofdata_to_platdata (live_tree true) dev_e2e priv0).1 = 0 ∧
    (rockchip_dwmmc_probe (live_tree true) upstream_layout env_ok dev_e2e
        { state0 with
          priv := (rockchip_dwmmc_ofdata_to_platdata (live_tree true) dev_e2e priv0).2 }
        []).2.2
      = [.clk_get_by_index "dwmmc@ff0c0000" 0,
          .uclass_get_device_by_phandle "dwmmc@ff0c0000" "mmc-pwrseq", .pwrseq_set_power true,
          .dwmci_setup_cfg "dwmmc@ff0c0000" 8 0 400000 52000000,
          .dwmci_probe "dwmmc@ff0c0000"] ∧
    (rockchip_dwmmc_probe (live_tree true) upstream_layout env_ok dev_e2e
        { state0 with
          priv := (rockchip_dwmmc_ofdata_to_platdata (live_tree true) dev_e2e priv0).2 }
        []).2.1.plat.cfg.f_max = 400000 ∧
    (rockchip_dwmmc_probe (live_tree true) upstream_layout env_ok dev_e2e
        { state0 with
          priv := (rockchip_dwmmc_ofdata_to_platdata (live_tree true) dev_e2e priv0).2 }
        []).2.1.plat.cfg.f_min = 52000000 ∧
    ¬ ((rockchip_dwmmc_probe (live_tree true) upstream_layout env_ok dev_e2e
        { state0 with
          priv := (rockchip_dwmmc_ofdata_to_platdata (live_tree true) dev_e2e priv0).2 }
        []).2.1.plat.cfg.f_max = 52000000 ∧
      (rockchip_dwmmc_probe (live_tree true) upstream_layout env_ok dev_e2e
        { state0 with
          priv := (rockchip_dwmmc_ofdata_to_platdata (live_tree true) dev_e2e priv0).2 }
        []).2.1.plat.cfg.f_min = 400000) := by
  decide

/-- C3, amended: for every device description whose `clock-freq-min-max` is the
two-element array `[a, b]`, parsing followed by a probe that reaches configuration setup
calls `dwmci_setup_cfg` with `max_clk = b` and `min_clk = a`, i.e. the array is consumed in
[min, max] order; for the node `bus-width = 8`, `fifo-depth = 32`,
`clock-freq-min-max = [52000000, 400000]`, no `non-removable`, the result has bus width 8,
device index 1, RX watermark 15, TX watermark 16 and clock bounds
(min, max) = (52000000, 400000). -/
theorem parse_probe_min_max_order (pw : Bool) (env : Env) (dev : udevice) (s : drv_state)
    (tr : List Event) (hclk : 0 ≤ env.respond tr (.clk_get_by_index dev.name 0))
    (hpw : ¬ pwrseq_aborts (live_tree pw) env dev (tr ++ [.clk_get_by_index dev.name 0])) :
    (∀ (L : FifothLayout) (a b : Nat),
      fdt_getprop dev.node "clock-freq-min-max" = some [a, b] →
      a < 4294967296 → b < 4294967296 → 0 ≤ fdtdec_get_int dev.node "fifo-depth" 0 →
      (rockchip_dwmmc_ofdata_to_platdata (live_tree pw) dev s.priv).1 = 0 ∧
      (rockchip_dwmmc_ofdata_to_platdata (live_tree pw) dev s.priv).2.minmax = (a, b) ∧
      (rockchip_dwmmc_probe (live_tree pw) L env dev
          { s with priv := (rockchip_dwmmc_ofdata_to_platdata (live_tree pw) dev s.priv).2 }
          tr).2.2
        = tr ++ [.clk_get_by_index dev.name 0]
            ++ pwrseq_events (live_tree pw) env dev (tr ++ [.clk_get_by_index dev.name 0])
            ++ [.dwmci_setup_cfg dev.name (fdtdec_get_int dev.node "bus-width" 4)
                  s.priv.host.caps b a, .dwmci_probe dev.name] ∧
      (rockchip_dwmmc_probe (live_tree pw) L env dev
          { s with priv := (rockchip_dwmmc_ofdata_to_platdata (live_tree pw) dev s.priv).2 }
          tr).2.1.plat.cfg.f_min = a ∧
      (rockchip_dwmmc_probe (live_tree pw) L env dev
          { s with priv := (rockchip_dwmmc_ofdata_to_platdata (live_tree pw) dev s.priv).2 }
          tr).2.1.plat.cfg.f_max = b) ∧
    (dev.node = node_e2e →
      (rockchip_dwmmc_probe (live_tree pw) upstream_layout env dev
          { s with priv := (rockchip_dwmmc_ofdata_to_platdata (live_tree pw) dev s.priv).2 }
          tr).2.1.priv.host.buswidth = 8 ∧
      (rockchip_dwmmc_probe (live_tree pw) upstream_layout env dev
          { s with priv := (rockchip_dwmmc_ofdata_to_platdata (live_tree pw) dev s.priv).2 }
          tr).2.1.priv.host.dev_index = 1 ∧
      rx_wmark_field (rockchip_dwmmc_probe (live_tree pw) upstream_layout env dev
          { s with priv := (rockchip_dwmmc_ofdata_to_platdata (live_tree pw) dev s.priv).2 }
          tr).2.1.priv.host.fifoth_val = 15 ∧
      tx_wmark_field (rockchip_dwmmc_probe (live_tree pw) upstream_layout env dev
          { s with priv := (rockchip_dwmmc_ofdata_to_platdata (live_tree pw) dev s.priv).2 }
          tr).2.1.priv.host.fifoth_val = 16 ∧
      (rockchip_dwmmc_probe (live_tree pw) upstream_layout env dev
          { s with priv := (rockchip_dwmmc_ofdata_to_platdata (live_tree pw) dev s.priv).2 }
          tr).2.1.plat.cfg.f_min = 52000000 ∧
      (rockchip_dwmmc_probe (live_tree pw) upstream_layout env dev
          { s with priv := (rockchip_dwmmc_ofdata_to_platdata (live_tree pw) dev s.priv).2 }
          tr).2.1.plat.cfg.f_max = 400000) := by
  have key : ∀ (L : FifothLayout) (s1 : drv_state),
      (rockchip_dwmmc_probe (live_tree pw) L env dev s1 tr).2.2
          = tr ++ [.clk_get_by_index dev.name 0]
            ++ pwrseq_events (live_tree pw) env dev (tr ++ [.clk_get_by_index dev.name 0])
            ++ [.dwmci_setup_cfg dev.name s1.priv.host.buswidth s1.priv.host.caps
                  s1.priv.minmax.2 s1.priv.minmax.1, .dwmci_probe dev.name] ∧
      (rockchip_dwmmc_probe (live_tree pw) L env dev s1 tr).2.1.plat.cfg.f_min
          = s1.priv.minmax.1 ∧
      (rockchip_dwmmc_probe (live_tree pw) L env dev s1 tr).2.1.plat.cfg.f_max
          = s1.priv.minmax.2 ∧
      (rockchip_dwmmc_probe (live_tree pw) L env dev s1 tr).2.1.priv.host.buswidth
          = s1.priv.host.buswidth ∧
      (rockchip_dwmmc_probe (live_tree pw) L env dev s1 tr).2.1.priv.host.dev_index
          = s1.priv.host.dev_index ∧
      (rockchip_dwmmc_probe (live_tree pw) L env dev s1 tr).2.1.priv.host.fifoth_val
          = fifoth_of_depth L s1.priv.fifo_depth := by
    intro L s1
    have hv := live_tree_vocabulary pw env dev s1 tr
    have h1 : 0 ≤ clk_get_ret (live_tree pw) env dev s1 tr := by rw [hv.1]; exact hclk
    have h2 : ¬ pwrseq_aborts (live_tree pw) env dev (after_clk (live_tree pw) dev s1 tr) := by
      rw [hv.2.1]; exact hpw
    have hc := probe_continue_eq (live_tree pw) L env dev s1 tr h1 h2
    have hd := probe_live_dev_index pw L env dev s1 tr h1 h2
    have hf := (probe_fifoth_of_clk (live_tree pw) L env dev s1 tr h1).1
    rw [hv.2.1, hv.2.2.1, hv.2.2.2.2.1, hv.2.2.2.2.2] at hc
    rw [hv.2.2.2.1] at hf
    exact ⟨hc.2.1, hc.2.2.1, hc.2.2.2.1, hc.2.2.2.2, hd, hf⟩
  constructor
  · intro L a b hprop ha hb hdepth
    have hm := ofdata_minmax pw dev s.priv a b hprop hdepth
    rw [Nat.mod_eq_of_lt ha, Nat.mod_eq_of_lt hb] at hm
    have hk := key L
      { s with priv := (rockchip_dwmmc_ofdata_to_platdata (live_tree pw) dev s.priv).2 }
    simp only [hm.2, ofdata_host_buswidth, ofdata_host_caps] at hk
    exact ⟨hm.1, hm.2, hk.1, hk.2.1, hk.2.2.1⟩
  · intro hnode
    have hprop : fdt_getprop dev.node "clock-freq-min-max" = some [52000000, 400000] := by
      rw [hnode]; decide
    have hdepth : fdtdec_get_int dev.node "fifo-depth" 0 = 32 := by
      rw [hnode]; decide
    have hbw : fdtdec_get_int dev.node "bus-width" 4 = 8 := by
      rw [hnode]; decide
    have hnr : fdtdec_get_bool dev.node "non-removable" = false := by
      rw [hnode]; decide
    have hm := ofdata_minmax pw dev s.priv 52000000 400000 hprop (by rw [hdepth]; decide)
    have hk := key upstream_layout
      { s with priv := (rockchip_dwmmc_ofdata_to_platdata (live_tree pw) dev s.priv).2 }
    simp only [hm.2, ofdata_host_buswidth, ofdata_host_dev_index, ofdata_fifo_depth, hdepth,
      hbw, hnr] at hk
    have hv : fifoth_of_depth upstream_layout 32 = 537853968 := by decide
    rw [hv] at hk
    rw [hk.2.1, hk.2.2.1, hk.2.2.2.1, hk.2.2.2.2.1, hk.2.2.2.2.2]
    decide

/-- Witness for the amended C3: the end-to-end node under an environment in which every
collaborator call succeeds. -/
theorem parse_probe_min_max_order_witness :
    ((rockchip_dwmmc_probe (live_tree true) upstream_layout env_ok dev_e2e
        { state0 with
          priv := (rockchip_dwmmc_ofdata_to_platdata (live_tree true) dev_e2e state0.priv).2 }
        []).2.1.plat.cfg.f_min = 52000000 ∧
    (rockchip_dwmmc_probe (live_tree true) upstream_layout env_ok dev_e2e
        { state0 with
          priv := (rockchip_dwmmc_ofdata_to_platdata (live_tree true) dev_e2e state0.priv).2 }
        []).2.1.plat.cfg.f_max = 400000) ∧
    ((rockchip_dwmmc_probe (live_tree true) upstream_layout env_ok dev_e2e
        { state0 with
          priv := (rockchip_dwmmc_ofdata_to_platdata (live_tree true) dev_e2e state0.priv).2 }
        []).2.1.priv.host.buswidth = 8 ∧
    (rockchip_dwmmc_probe (live_tree true) upstream_layout env_ok dev_e2e
        { state0 with
          priv := (rockchip_dwmmc_ofdata_to_platdata (live_tree true) dev_e2e state0.priv).2 }
        []).2.1.priv.host.dev_index = 1) :=
  ⟨⟨((parse_probe_min_max_order true env_ok dev_e2e state0 [] (by decide)
      (fun h => absurd rfl h.2.2)).1 upstream_layout 52000000 400000 (by decide) (by decide)
      (by decide) (by decide)).2.2.2.1,
    ((parse_probe_min_max_order true env_ok dev_e2e state0 [] (by decide)
      (fun h => absurd rfl h.2.2)).1 upstream_layout 52000000 400000 (by decide) (by decide)
      (by decide) (by decide)).2.2.2.2⟩,
   ⟨((parse_probe_min_max_order true env_ok dev_e2e state0 [] (by decide)
      (fun h => absurd rfl h.2.2)).2 rfl).1,
    ((parse_probe_min_max_order true env_ok dev_e2e state0 [] (by decide)
      (fun h => absurd rfl h.2.2)).2 rfl).2.1⟩⟩

end RockchipDwMmc
